import Mathlib

/-!
Shallow embedding of `src/Plot.tsx`: the `Plot` component of
motion-canvas-graphing.  JavaScript numbers are modelled as real numbers;
vectors as pairs of reals with the host framework's componentwise
operations; the canvas 2D context as a list of issued drawing commands.
Division and `Math.log10` are additionally given checked (`Option`-valued)
variants that return `none` exactly where the JavaScript computation leaves
the finite reals (division by zero, `log10` of a non-positive number).
-/

noncomputable section

/-- A 2D vector, modelling the host framework's `Vector2`. -/
@[ext]
structure Vec2 where
  x : ℝ
  y : ℝ

/-- Componentwise addition, modelling `Vector2.add`. -/
def Vec2.add (a b : Vec2) : Vec2 := ⟨a.x + b.x, a.y + b.y⟩

/-- Componentwise subtraction, modelling `Vector2.sub`. -/
def Vec2.sub (a b : Vec2) : Vec2 := ⟨a.x - b.x, a.y - b.y⟩

/-- Componentwise multiplication, modelling `Vector2.mul`. -/
def Vec2.mul (a b : Vec2) : Vec2 := ⟨a.x * b.x, a.y * b.y⟩

/-- Componentwise division, modelling `Vector2.div`.  Division by zero is
Lean's junk value `0`; the checked variants below track where that occurs. -/
def Vec2.div (a b : Vec2) : Vec2 := ⟨a.x / b.x, a.y / b.y⟩

@[simp] lemma Vec2.add_x (a b : Vec2) : (a.add b).x = a.x + b.x := rfl
@[simp] lemma Vec2.add_y (a b : Vec2) : (a.add b).y = a.y + b.y := rfl
@[simp] lemma Vec2.sub_x (a b : Vec2) : (a.sub b).x = a.x - b.x := rfl
@[simp] lemma Vec2.sub_y (a b : Vec2) : (a.sub b).y = a.y - b.y := rfl
@[simp] lemma Vec2.mul_x (a b : Vec2) : (a.mul b).x = a.x * b.x := rfl
@[simp] lemma Vec2.mul_y (a b : Vec2) : (a.mul b).y = a.y * b.y := rfl
@[simp] lemma Vec2.div_x (a b : Vec2) : (a.div b).x = a.x / b.x := rfl
@[simp] lemma Vec2.div_y (a b : Vec2) : (a.div b).y = a.y / b.y := rfl

/-- The state of a `Plot` node: the values of all declarative properties read
by the drawing code, together with the `Rect`/`Layout` data it inherits
(`position` is the node's centre, `size` its extent, canvas y grows
downwards) and the two formatter fields installed by the constructor.
Colors are kept as resolved style strings. -/
structure Plot where
  position : Vec2
  size : Vec2
  fontFamily : String
  min : Vec2
  max : Vec2
  ticks : Vec2
  labelSize : Vec2
  labelPadding : Vec2
  tickLabelSize : Vec2
  tickOverflow : Vec2
  gridStrokeWidth : Vec2
  axisStrokeWidth : Vec2
  xAxisColor : String
  xAxisTextColor : String
  xAxisLabel : String
  yAxisColor : String
  yAxisTextColor : String
  yAxisLabel : String
  xLabelFormatter : ℝ → String
  yLabelFormatter : ℝ → String

/-- Models the host `Layout.topLeft` cardinal point (centred layout). -/
def Plot.topLeft (p : Plot) : Vec2 :=
  ⟨p.position.x - p.size.x / 2, p.position.y - p.size.y / 2⟩

/-- Models the host `Layout.bottomLeft` cardinal point. -/
def Plot.bottomLeft (p : Plot) : Vec2 :=
  ⟨p.position.x - p.size.x / 2, p.position.y + p.size.y / 2⟩

/-- Models the host `Layout.topRight` cardinal point. -/
def Plot.topRight (p : Plot) : Vec2 :=
  ⟨p.position.x + p.size.x / 2, p.position.y - p.size.y / 2⟩

/-- Models the host `Layout.bottom` cardinal point. -/
def Plot.bottom (p : Plot) : Vec2 :=
  ⟨p.position.x, p.position.y + p.size.y / 2⟩

/-- Models the host `Layout.left` cardinal point. -/
def Plot.left (p : Plot) : Vec2 :=
  ⟨p.position.x - p.size.x / 2, p.position.y⟩

/-- `Plot.edgePadding` (Plot.tsx lines 110-117): labelSize + labelPadding +
tickLabelSize * (log10(max.y) + 1, 2) + tickOverflow + axisStrokeWidth. -/
def Plot.edgePadding (p : Plot) : Vec2 :=
  (((p.labelSize.add p.labelPadding).add
        (p.tickLabelSize.mul ⟨Real.logb 10 p.max.y + 1, 2⟩)).add
      p.tickOverflow).add
    p.axisStrokeWidth

/-- `Plot.gridSize` (lines 119-122): size - edgePadding. -/
def Plot.gridSize (p : Plot) : Vec2 := p.size.sub p.edgePadding

/-- `Plot.mapToX` (lines 252-254). -/
def Plot.mapToX (p : Plot) (value : ℝ) : ℝ :=
  p.min.x + value * (p.max.x - p.min.x)

/-- `Plot.mapToY` (lines 256-258). -/
def Plot.mapToY (p : Plot) (value : ℝ) : ℝ :=
  p.min.y + value * (p.max.y - p.min.y)

/-- `Plot.toRelativeGridSize` (lines 260-262). -/
def Plot.toRelativeGridSize (p : Plot) (pt : Vec2) : Vec2 :=
  (pt.sub p.min).div (p.max.sub p.min)

/-- `Plot.getPointFromPlotSpace` (lines 246-250). -/
def Plot.getPointFromPlotSpace (p : Plot) (point : Vec2) : Vec2 :=
  let bottomLeft := p.bottomLeft.add (p.edgePadding.mul ⟨1, -1⟩)
  let delta := p.topRight.sub bottomLeft
  bottomLeft.add ((p.toRelativeGridSize point).mul delta)

/-- One command issued on the `CanvasRenderingContext2D` by `drawShape`.
Style and font assignments are recorded as commands so that the full
interaction with the context is captured; `font` keeps the numeric pixel
size and the family separately. -/
inductive DrawCmd where
  | beginPath : DrawCmd
  | moveTo (x y : ℝ) : DrawCmd
  | lineTo (x y : ℝ) : DrawCmd
  | strokeStyle (c : String) : DrawCmd
  | lineWidth (w : ℝ) : DrawCmd
  | stroke : DrawCmd
  | fillStyle (c : String) : DrawCmd
  | font (sizePx : ℝ) (family : String) : DrawCmd
  | textAlign (a : String) : DrawCmd
  | fillText (s : String) (x y : ℝ) : DrawCmd
  | save : DrawCmd
  | translate (x y : ℝ) : DrawCmd
  | rotate (angle : ℝ) : DrawCmd
  | restore : DrawCmd

/-- The local `tl` of `drawShape` (line 131): topLeft + edgePadding * (1, 0). -/
def Plot.tl (p : Plot) : Vec2 := p.topLeft.add (p.edgePadding.mul ⟨1, 0⟩)

/-- The `startPosition` of the i-th iteration of the x tick loop (lines
134-136): tl + gridSize * (i / ticks.x, 1). -/
def Plot.xTickStart (p : Plot) (i : ℕ) : Vec2 :=
  p.tl.add (p.gridSize.mul ⟨(i : ℝ) / p.ticks.x, 1⟩)

/-- The `startPosition` of the i-th iteration of the y tick loop (lines
165-167): tl + gridSize * (1, 1 - i / ticks.y). -/
def Plot.yTickStart (p : Plot) (i : ℕ) : Vec2 :=
  p.tl.add (p.gridSize.mul ⟨1, 1 - (i : ℝ) / p.ticks.y⟩)

/-- The body of the i-th iteration of the x tick loop (lines 133-162): one
vertical gridline stroked at `xTickStart i` plus its tick label. -/
def Plot.xTickCmds (p : Plot) (i : ℕ) : List DrawCmd :=
  [.beginPath,
   .moveTo (p.xTickStart i).x
     ((p.xTickStart i).y + p.tickOverflow.x + p.axisStrokeWidth.x / 2 +
       p.axisStrokeWidth.x / 2),
   .lineTo (p.xTickStart i).x p.tl.y,
   .strokeStyle p.xAxisColor,
   .lineWidth p.gridStrokeWidth.x,
   .stroke,
   .fillStyle p.xAxisTextColor,
   .font p.tickLabelSize.y "sans-serif",
   .textAlign "right",
   .fillText (p.xLabelFormatter (p.mapToX ((i : ℝ) / p.ticks.x)))
     (p.xTickStart i).x
     ((p.xTickStart i).y + p.tickLabelSize.x + p.tickOverflow.x +
       p.axisStrokeWidth.x)]

/-- The body of the i-th iteration of the y tick loop (lines 164-190): one
horizontal gridline stroked at `yTickStart i` plus its tick label. -/
def Plot.yTickCmds (p : Plot) (i : ℕ) : List DrawCmd :=
  [.beginPath,
   .moveTo (p.yTickStart i).x (p.yTickStart i).y,
   .lineTo (p.tl.x - p.tickOverflow.y - p.axisStrokeWidth.y) (p.yTickStart i).y,
   .strokeStyle p.yAxisColor,
   .lineWidth p.gridStrokeWidth.y,
   .stroke,
   .fillStyle p.yAxisTextColor,
   .font p.tickLabelSize.y p.fontFamily,
   .textAlign "right",
   .fillText (p.yLabelFormatter (p.mapToY ((i : ℝ) / p.ticks.y)))
     (p.tl.x - p.tickLabelSize.y - p.tickOverflow.y - p.axisStrokeWidth.y)
     ((p.yTickStart i).y + p.tickLabelSize.y / 2)]

/-- A counting loop `for i = 0; i < n; i++` over command-emitting bodies,
concatenating the commands in iteration order. -/
def tickLoop (f : ℕ → List DrawCmd) : ℕ → List DrawCmd
  | 0 => []
  | n + 1 => tickLoop f n ++ f n

/-- Number of iterations of the x tick loop, `for i = 0; i <= floor(ticks.x)`
(line 133): floor(ticks.x) + 1 iterations, none when floor(ticks.x) < 0. -/
def Plot.xTickCount (p : Plot) : ℕ := (⌊p.ticks.x⌋ + 1).toNat

/-- Number of iterations of the y tick loop (line 164). -/
def Plot.yTickCount (p : Plot) : ℕ := (⌊p.ticks.y⌋ + 1).toNat

/-- The full x tick loop of `drawShape` (lines 133-162). -/
def Plot.xTickLoop (p : Plot) : List DrawCmd := tickLoop p.xTickCmds p.xTickCount

/-- The full y tick loop of `drawShape` (lines 164-190). -/
def Plot.yTickLoop (p : Plot) : List DrawCmd := tickLoop p.yTickCmds p.yTickCount

/-- The two axis strokes of `drawShape` (lines 192-220). -/
def Plot.axisCmds (p : Plot) : List DrawCmd :=
  [.beginPath,
   .moveTo ((p.getPointFromPlotSpace ⟨0, p.min.y⟩).x - p.gridStrokeWidth.y / 2)
     ((p.getPointFromPlotSpace ⟨0, p.min.y⟩).y - p.gridStrokeWidth.y / 2),
   .lineTo ((p.getPointFromPlotSpace ⟨0, p.max.y⟩).x - p.gridStrokeWidth.y / 2)
     ((p.getPointFromPlotSpace ⟨0, p.max.y⟩).y + p.gridStrokeWidth.y / 2),
   .strokeStyle p.xAxisColor,
   .lineWidth p.axisStrokeWidth.x,
   .stroke,
   .beginPath,
   .moveTo ((p.getPointFromPlotSpace ⟨p.min.x, 0⟩).x - p.gridStrokeWidth.x / 2)
     ((p.getPointFromPlotSpace ⟨p.min.x, 0⟩).y + p.gridStrokeWidth.x / 2),
   .lineTo ((p.getPointFromPlotSpace ⟨p.max.x, 0⟩).x + p.gridStrokeWidth.x / 2)
     ((p.getPointFromPlotSpace ⟨p.max.x, 0⟩).y + p.gridStrokeWidth.x / 2),
   .strokeStyle p.yAxisColor,
   .lineWidth p.axisStrokeWidth.y,
   .stroke]

/-- The axis label block of `drawShape` (lines 222-243): the x axis label,
then the y axis label drawn rotated inside a save/restore pair. -/
def Plot.axisLabelCmds (p : Plot) : List DrawCmd :=
  [.fillStyle p.xAxisTextColor,
   .font p.labelSize.y p.fontFamily,
   .textAlign "center",
   .fillText p.xAxisLabel (p.bottom.x + p.edgePadding.x / 2)
     (p.bottom.y - p.labelPadding.x / 2),
   .fillStyle p.yAxisTextColor,
   .font p.labelSize.y p.fontFamily,
   .textAlign "center",
   .save,
   .translate (p.left.x + p.labelPadding.y / 2 + p.labelSize.y)
     (p.left.y - p.edgePadding.y / 2),
   .rotate (-Real.pi / 2),
   .fillText p.yAxisLabel 0 0,
   .restore]

/-- `Plot.drawShape` (lines 130-244) as the sequence of context commands it
issues: x tick loop, y tick loop, the two axes, the two axis labels. -/
def Plot.drawShape (p : Plot) : List DrawCmd :=
  p.xTickLoop ++ p.yTickLoop ++ p.axisCmds ++ p.axisLabelCmds

/-- `drawShape` as a transformer of the component state: the method body
contains no write to any of the component's properties, so the `Plot` value
passes through unchanged next to the commands it issues. -/
def Plot.drawShapeRun (p : Plot) : Plot × List DrawCmd := (p, p.drawShape)

/-- Real division, defined (`some`) exactly when the JavaScript quotient is a
finite real, i.e. when the divisor is nonzero. -/
def checkedDiv (a b : ℝ) : Option ℝ := if b = 0 then none else some (a / b)

/-- `Math.log10`, defined (`some`) exactly when the JavaScript result is a
finite real: `log10` of zero is -Infinity and of a negative number NaN. -/
def checkedLog10 (x : ℝ) : Option ℝ :=
  if 0 < x then some (Real.logb 10 x) else none

/-- `toRelativeGridSize` with the two componentwise divisions checked. -/
def Plot.toRelativeGridSizeChecked (p : Plot) (pt : Vec2) : Option Vec2 := do
  let rx ← checkedDiv (pt.x - p.min.x) (p.max.x - p.min.x)
  let ry ← checkedDiv (pt.y - p.min.y) (p.max.y - p.min.y)
  pure ⟨rx, ry⟩

/-- `edgePadding` with the `Math.log10(max.y)` call checked. -/
def Plot.edgePaddingChecked (p : Plot) : Option Vec2 :=
  (checkedLog10 p.max.y).map fun l =>
    (((p.labelSize.add p.labelPadding).add
          (p.tickLabelSize.mul ⟨l + 1, 2⟩)).add
        p.tickOverflow).add
      p.axisStrokeWidth

/-- `gridSize` built on the checked `edgePadding`. -/
def Plot.gridSizeChecked (p : Plot) : Option Vec2 :=
  p.edgePaddingChecked.map fun pad => p.size.sub pad

/-- `getPointFromPlotSpace` with both the `log10` in `edgePadding` and the
divisions in `toRelativeGridSize` checked. -/
def Plot.getPointFromPlotSpaceChecked (p : Plot) (point : Vec2) : Option Vec2 := do
  let pad ← p.edgePaddingChecked
  let rel ← p.toRelativeGridSizeChecked point
  let bottomLeft := p.bottomLeft.add (pad.mul ⟨1, -1⟩)
  let delta := p.topRight.sub bottomLeft
  pure (bottomLeft.add (rel.mul delta))

/-- The constructor's props bag, as far as the constructor body reads it:
only the two formatter fields are accessed (lines 126-127); every other
property is forwarded to the host `Rect` constructor via `super(props)`. -/
structure PlotProps where
  xLabelFormatter : Option (ℝ → String)
  yLabelFormatter : Option (ℝ → String)

/-- `Number.prototype.toFixed(0)`: the integer string nearest the number,
ties rounded away from zero (the sign is processed separately, so negative
inputs keep their minus sign). -/
def jsToFixed0 (v : ℝ) : String :=
  if v < 0 then "-" ++ toString ⌊-v + 1 / 2⌋ else toString ⌊v + 1 / 2⌋

/-- The `Plot` constructor's handling of its optional `props` parameter
(lines 124-128): `props` absent makes `props.xLabelFormatter` a dereference
of an absent value (`none`); otherwise each formatter defaults to
`v => v.toFixed(0)` when omitted. -/
def constructFormatters : Option PlotProps → Option ((ℝ → String) × (ℝ → String))
  | none => none
  | some props =>
      some (props.xLabelFormatter.getD jsToFixed0,
        props.yLabelFormatter.getD jsToFixed0)

/-- How many `stroke()` calls a command sequence contains. -/
def strokeCount : List DrawCmd → ℕ
  | [] => 0
  | .stroke :: rest => 1 + strokeCount rest
  | _ :: rest => strokeCount rest

/-- The strings passed to `fillText`, in order. -/
def fillTextStrings : List DrawCmd → List String
  | [] => []
  | .fillText s _ _ :: rest => s :: fillTextStrings rest
  | _ :: rest => fillTextStrings rest

/-- A canvas affine transform in the 2D context convention
`transform(a, b, c, d, e, f)`: the matrix with rows (a c e), (b d f). -/
structure Mat where
  a : ℝ
  b : ℝ
  c : ℝ
  d : ℝ
  e : ℝ
  f : ℝ

/-- Matrix composition as the canvas applies it: `m.comp n` post-multiplies
the current transform `m` by `n`. -/
def Mat.comp (m n : Mat) : Mat :=
  ⟨m.a * n.a + m.c * n.b, m.b * n.a + m.d * n.b,
   m.a * n.c + m.c * n.d, m.b * n.c + m.d * n.d,
   m.a * n.e + m.c * n.f + m.e, m.b * n.e + m.d * n.f + m.f⟩

/-- The matrix of `context.translate(x, y)`. -/
def Mat.translation (x y : ℝ) : Mat := ⟨1, 0, 0, 1, x, y⟩

/-- The matrix of `context.rotate(angle)`. -/
def Mat.rotation (angle : ℝ) : Mat :=
  ⟨Real.cos angle, Real.sin angle, -Real.sin angle, Real.cos angle, 0, 0⟩

/-- The transform-related state of a canvas 2D context: the current
transform and the stack managed by `save()`/`restore()`. -/
structure CanvasTransformState where
  current : Mat
  stack : List Mat

/-- The effect of one command on the context's transform state: `save`
pushes, `restore` pops (a no-op on an empty stack, as on the web canvas),
`translate` and `rotate` post-multiply the current transform, and every
other command leaves the transform state unchanged. -/
def applyCmd (st : CanvasTransformState) : DrawCmd → CanvasTransformState
  | .save => ⟨st.current, st.current :: st.stack⟩
  | .restore =>
      match st.stack with
      | [] => st
      | m :: rest => ⟨m, rest⟩
  | .translate x y => ⟨st.current.comp (Mat.translation x y), st.stack⟩
  | .rotate angle => ⟨st.current.comp (Mat.rotation angle), st.stack⟩
  | _ => st

/-- The effect of a command sequence on the transform state. -/
def applyCmds : List DrawCmd → CanvasTransformState → CanvasTransformState
  | [], st => st
  | c :: rest, st => applyCmds rest (applyCmd st c)

/-- A concrete plot with the component's default property values (a 500x400
node, data range (0,0) to (100,100), 10 ticks per axis). -/
def plotA : Plot where
  position := ⟨0, 0⟩
  size := ⟨500, 400⟩
  fontFamily := "sans-serif"
  min := ⟨0, 0⟩
  max := ⟨100, 100⟩
  ticks := ⟨10, 10⟩
  labelSize := ⟨30, 30⟩
  labelPadding := ⟨10, 10⟩
  tickLabelSize := ⟨10, 10⟩
  tickOverflow := ⟨5, 5⟩
  gridStrokeWidth := ⟨1, 1⟩
  axisStrokeWidth := ⟨2, 2⟩
  xAxisColor := "white"
  xAxisTextColor := "white"
  xAxisLabel := ""
  yAxisColor := "white"
  yAxisTextColor := "white"
  yAxisLabel := ""
  xLabelFormatter := jsToFixed0
  yLabelFormatter := jsToFixed0

/-- A concrete plot whose data range is degenerate on the x axis
(min.x = max.x = 1) while max.y = 1 keeps `log10(max.y)` exactly 0. -/
def plotDegX : Plot := { plotA with size := ⟨200, 200⟩, min := ⟨1, 0⟩, max := ⟨1, 1⟩ }

/-- A concrete plot with max.y = 0, where `Math.log10(max.y)` is not a
finite real. -/
def plotY0 : Plot := { plotA with max := ⟨100, 0⟩ }

lemma strokeCount_append (l1 l2 : List DrawCmd) :
    strokeCount (l1 ++ l2) = strokeCount l1 + strokeCount l2 := by
  induction l1 with
  | nil => simp [strokeCount]
  | cons c rest ih => cases c <;> simp [strokeCount, ih, Nat.add_assoc]

lemma fillTextStrings_append (l1 l2 : List DrawCmd) :
    fillTextStrings (l1 ++ l2) = fillTextStrings l1 ++ fillTextStrings l2 := by
  induction l1 with
  | nil => simp [fillTextStrings]
  | cons c rest ih => cases c <;> simp [fillTextStrings, ih]

lemma strokeCount_tickLoop (f : ℕ → List DrawCmd)
    (h : ∀ i, strokeCount (f i) = 1) (n : ℕ) :
    strokeCount (tickLoop f n) = n := by
  induction n with
  | zero => rfl
  | succ n ih => simp [tickLoop, strokeCount_append, ih, h]

lemma fillTextStrings_tickLoop (f : ℕ → List DrawCmd) (g : ℕ → String)
    (h : ∀ i, fillTextStrings (f i) = [g i]) (n : ℕ) :
    fillTextStrings (tickLoop f n) = (List.range n).map g := by
  induction n with
  | zero => rfl
  | succ n ih => simp [tickLoop, fillTextStrings_append, ih, h, List.range_succ]

lemma applyCmds_append (l1 l2 : List DrawCmd) (st : CanvasTransformState) :
    applyCmds (l1 ++ l2) st = applyCmds l2 (applyCmds l1 st) := by
  induction l1 generalizing st with
  | nil => rfl
  | cons c rest ih => simp [applyCmds, ih]

lemma applyCmds_tickLoop (f : ℕ → List DrawCmd)
    (h : ∀ i st, applyCmds (f i) st = st) (n : ℕ) (st : CanvasTransformState) :
    applyCmds (tickLoop f n) st = st := by
  induction n generalizing st with
  | zero => rfl
  | succ n ih => rw [tickLoop, applyCmds_append, ih, h]

/-- C5: edgePadding equals labelSize + labelPadding + tickLabelSize
componentwise-multiplied by (log10(max.y) + 1, 2) + tickOverflow +
axisStrokeWidth, and gridSize equals size - edgePadding. -/
theorem Plot.edgePadding_formula (p : Plot) :
    p.edgePadding =
      ⟨p.labelSize.x + p.labelPadding.x +
          p.tickLabelSize.x * (Real.logb 10 p.max.y + 1) +
          p.tickOverflow.x + p.axisStrokeWidth.x,
        p.labelSize.y + p.labelPadding.y + p.tickLabelSize.y * 2 +
          p.tickOverflow.y + p.axisStrokeWidth.y⟩ ∧
    p.gridSize = ⟨p.size.x - p.edgePadding.x, p.size.y - p.edgePadding.y⟩ := by
  constructor <;> apply Vec2.ext <;>
    simp [Plot.edgePadding, Plot.gridSize]

/-- C3: mapToX and mapToY are the linear interpolations
min + t * (max - min) on their axis, and whenever max.x != min.x and
max.y != min.y they invert toRelativeGridSize componentwise. -/
theorem Plot.mapTo_linear_inverse (p : Plot)
    (hx : p.max.x ≠ p.min.x) (hy : p.max.y ≠ p.min.y) :
    (∀ t : ℝ, p.mapToX t = p.min.x + t * (p.max.x - p.min.x)) ∧
    (∀ t : ℝ, p.mapToY t = p.min.y + t * (p.max.y - p.min.y)) ∧
    ∀ pt : Vec2,
      p.mapToX (p.toRelativeGridSize pt).x = pt.x ∧
      p.mapToY (p.toRelativeGridSize pt).y = pt.y := by
  refine ⟨fun t => rfl, fun t => rfl, fun pt => ⟨?_, ?_⟩⟩
  · show p.min.x + (pt.x - p.min.x) / (p.max.x - p.min.x) * (p.max.x - p.min.x) = pt.x
    rw [div_mul_cancel₀ _ (sub_ne_zero.mpr hx)]
    ring
  · show p.min.y + (pt.y - p.min.y) / (p.max.y - p.min.y) * (p.max.y - p.min.y) = pt.y
    rw [div_mul_cancel₀ _ (sub_ne_zero.mpr hy)]
    ring

/-- Witness for C3 at the default plot, whose data range is (0,0)-(100,100). -/
theorem Plot.mapTo_linear_inverse_witness :
    (∀ t : ℝ, plotA.mapToX t = plotA.min.x + t * (plotA.max.x - plotA.min.x)) ∧
    (∀ t : ℝ, plotA.mapToY t = plotA.min.y + t * (plotA.max.y - plotA.min.y)) ∧
    ∀ pt : Vec2,
      plotA.mapToX (plotA.toRelativeGridSize pt).x = pt.x ∧
      plotA.mapToY (plotA.toRelativeGridSize pt).y = pt.y :=
  Plot.mapTo_linear_inverse plotA (by norm_num [plotA]) (by norm_num [plotA])

/-- C1 (amended with the nondegeneracy precondition max.x != min.x and
max.y != min.y): getPointFromPlotSpace maps min to
bottomLeft + edgePadding * (1, -1), max to topRight, and every point of the
form (mapToX tx, mapToY ty) to the componentwise linear interpolation
between those two corners. -/
theorem Plot.getPointFromPlotSpace_affine (p : Plot)
    (hx : p.max.x ≠ p.min.x) (hy : p.max.y ≠ p.min.y) :
    p.getPointFromPlotSpace p.min = p.bottomLeft.add (p.edgePadding.mul ⟨1, -1⟩) ∧
    p.getPointFromPlotSpace p.max = p.topRight ∧
    ∀ tx ty : ℝ,
      p.getPointFromPlotSpace ⟨p.mapToX tx, p.mapToY ty⟩ =
        ⟨(1 - tx) * (p.bottomLeft.add (p.edgePadding.mul ⟨1, -1⟩)).x +
            tx * p.topRight.x,
          (1 - ty) * (p.bottomLeft.add (p.edgePadding.mul ⟨1, -1⟩)).y +
            ty * p.topRight.y⟩ := by
  have hx0 : p.max.x - p.min.x ≠ 0 := sub_ne_zero.mpr hx
  have hy0 : p.max.y - p.min.y ≠ 0 := sub_ne_zero.mpr hy
  refine ⟨?_, ?_, fun tx ty => ?_⟩ <;>
    apply Vec2.ext <;>
      simp [Plot.getPointFromPlotSpace, Plot.toRelativeGridSize,
        Plot.mapToX, Plot.mapToY] <;>
    field_simp <;>
    ring

/-- Counterexample to C1 as stated: at a state whose x data range is
degenerate (min.x = max.x = 1), getPointFromPlotSpace does not map max to
topRight. -/
theorem Plot.getPointFromPlotSpace_degenerate_cex :
    plotDegX.getPointFromPlotSpace plotDegX.max ≠ plotDegX.topRight := by
  intro h
  have hx := congrArg Vec2.x h
  simp [plotDegX, plotA, Plot.getPointFromPlotSpace, Plot.toRelativeGridSize,
    Plot.edgePadding, Plot.bottomLeft, Plot.topRight, Real.logb_one] at hx
  norm_num at hx

/-- Witness for C1 at the default plot. -/
theorem Plot.getPointFromPlotSpace_affine_witness :
    plotA.getPointFromPlotSpace plotA.min =
      plotA.bottomLeft.add (plotA.edgePadding.mul ⟨1, -1⟩) ∧
    plotA.getPointFromPlotSpace plotA.max = plotA.topRight ∧
    ∀ tx ty : ℝ,
      plotA.getPointFromPlotSpace ⟨plotA.mapToX tx, plotA.mapToY ty⟩ =
        ⟨(1 - tx) * (plotA.bottomLeft.add (plotA.edgePadding.mul ⟨1, -1⟩)).x +
            tx * plotA.topRight.x,
          (1 - ty) * (plotA.bottomLeft.add (plotA.edgePadding.mul ⟨1, -1⟩)).y +
            ty * plotA.topRight.y⟩ :=
  Plot.getPointFromPlotSpace_affine plotA (by norm_num [plotA]) (by norm_num [plotA])

/-- C2 (amended with the nondegeneracy precondition max.x != min.x and
max.y != min.y): for ticks.x > 0 and i up to floor(ticks.x), the x pixel
coordinate of the i-th vertical gridline (the `startPosition` used by the
moveTo/lineTo of the x tick loop, tl.x + gridSize.x * i / ticks.x) equals
the x coordinate of getPointFromPlotSpace at the data value
mapToX(i / ticks.x); analogously for the horizontal gridlines and mapToY. -/
theorem Plot.gridline_matches_plotSpace (p : Plot) (i : ℕ) (q : ℝ)
    (hx : p.max.x ≠ p.min.x) (hy : p.max.y ≠ p.min.y)
    (htx : 0 < p.ticks.x) (hty : 0 < p.ticks.y) :
    (i ≤ ⌊p.ticks.x⌋.toNat →
      (p.xTickStart i).x =
        (p.getPointFromPlotSpace ⟨p.mapToX ((i : ℝ) / p.ticks.x), q⟩).x) ∧
    (i ≤ ⌊p.ticks.y⌋.toNat →
      (p.yTickStart i).y =
        (p.getPointFromPlotSpace ⟨q, p.mapToY ((i : ℝ) / p.ticks.y)⟩).y) := by
  have hx0 : p.max.x - p.min.x ≠ 0 := sub_ne_zero.mpr hx
  have hy0 : p.max.y - p.min.y ≠ 0 := sub_ne_zero.mpr hy
  constructor <;> intro hi <;>
    simp [Plot.xTickStart, Plot.yTickStart, Plot.tl, Plot.topLeft,
      Plot.bottomLeft, Plot.topRight, Plot.gridSize, Plot.getPointFromPlotSpace,
      Plot.toRelativeGridSize, Plot.mapToX, Plot.mapToY] <;>
    field_simp <;>
    ring

/-- Counterexample to C2 as stated: at a state with ticks.x = 10 > 0 but a
degenerate x data range (min.x = max.x = 1), the first vertical gridline's x
coordinate differs from the x coordinate getPointFromPlotSpace assigns to
the data value mapToX(1 / ticks.x). -/
theorem Plot.gridline_degenerate_cex :
    0 < plotDegX.ticks.x ∧ 1 ≤ ⌊plotDegX.ticks.x⌋.toNat ∧
    (plotDegX.xTickStart 1).x ≠
      (plotDegX.getPointFromPlotSpace
        ⟨plotDegX.mapToX ((1 : ℝ) / plotDegX.ticks.x), 0⟩).x := by
  refine ⟨by norm_num [plotDegX, plotA], by norm_num [plotDegX, plotA], ?_⟩
  intro h
  simp [plotDegX, plotA, Plot.xTickStart, Plot.tl, Plot.topLeft,
    Plot.bottomLeft, Plot.topRight, Plot.gridSize, Plot.edgePadding,
    Plot.getPointFromPlotSpace, Plot.toRelativeGridSize, Plot.mapToX,
    Real.logb_one] at h
  norm_num at h

/-- Witness for C2 at the default plot, gridline index 1. -/
theorem Plot.gridline_matches_plotSpace_witness :
    ((1 : ℕ) ≤ ⌊plotA.ticks.x⌋.toNat →
      (plotA.xTickStart 1).x =
        (plotA.getPointFromPlotSpace
          ⟨plotA.mapToX (((1 : ℕ) : ℝ) / plotA.ticks.x), 0⟩).x) ∧
    ((1 : ℕ) ≤ ⌊plotA.ticks.y⌋.toNat →
      (plotA.yTickStart 1).y =
        (plotA.getPointFromPlotSpace
          ⟨0, plotA.mapToY (((1 : ℕ) : ℝ) / plotA.ticks.y)⟩).y) :=
  Plot.gridline_matches_plotSpace plotA 1 0 (by norm_num [plotA])
    (by norm_num [plotA]) (by norm_num [plotA]) (by norm_num [plotA])

/-- C4: with ticks.x >= 0 and ticks.y >= 0, the x tick loop strokes exactly
floor(ticks.x) + 1 vertical gridlines and fills exactly one label per
gridline, the label at index i being xLabelFormatter(mapToX(i / ticks.x));
analogously for the y tick loop. -/
theorem Plot.tick_loop_counts (p : Plot)
    (hx : 0 ≤ p.ticks.x) (hy : 0 ≤ p.ticks.y) :
    strokeCount p.xTickLoop = ⌊p.ticks.x⌋.toNat + 1 ∧
    fillTextStrings p.xTickLoop =
      (List.range (⌊p.ticks.x⌋.toNat + 1)).map
        (fun i : ℕ => p.xLabelFormatter (p.mapToX ((i : ℝ) / p.ticks.x))) ∧
    strokeCount p.yTickLoop = ⌊p.ticks.y⌋.toNat + 1 ∧
    fillTextStrings p.yTickLoop =
      (List.range (⌊p.ticks.y⌋.toNat + 1)).map
        (fun i : ℕ => p.yLabelFormatter (p.mapToY ((i : ℝ) / p.ticks.y))) := by
  have hfx : (0 : ℤ) ≤ ⌊p.ticks.x⌋ := Int.floor_nonneg.mpr hx
  have hfy : (0 : ℤ) ≤ ⌊p.ticks.y⌋ := Int.floor_nonneg.mpr hy
  have hcx : p.xTickCount = ⌊p.ticks.x⌋.toNat + 1 := by
    unfold Plot.xTickCount; omega
  have hcy : p.yTickCount = ⌊p.ticks.y⌋.toNat + 1 := by
    unfold Plot.yTickCount; omega
  refine ⟨?_, ?_, ?_, ?_⟩
  · rw [Plot.xTickLoop, hcx]
    exact strokeCount_tickLoop p.xTickCmds (fun i => rfl) _
  · rw [Plot.xTickLoop, hcx]
    exact fillTextStrings_tickLoop p.xTickCmds
      (fun i : ℕ => p.xLabelFormatter (p.mapToX ((i : ℝ) / p.ticks.x)))
      (fun i => rfl) _
  · rw [Plot.yTickLoop, hcy]
    exact strokeCount_tickLoop p.yTickCmds (fun i => rfl) _
  · rw [Plot.yTickLoop, hcy]
    exact fillTextStrings_tickLoop p.yTickCmds
      (fun i : ℕ => p.yLabelFormatter (p.mapToY ((i : ℝ) / p.ticks.y)))
      (fun i => rfl) _

/-- Witness for C4 at the default plot with ticks = (10, 10). -/
theorem Plot.tick_loop_counts_witness :
    strokeCount plotA.xTickLoop = ⌊plotA.ticks.x⌋.toNat + 1 ∧
    fillTextStrings plotA.xTickLoop =
      (List.range (⌊plotA.ticks.x⌋.toNat + 1)).map
        (fun i : ℕ => plotA.xLabelFormatter (plotA.mapToX ((i : ℝ) / plotA.ticks.x))) ∧
    strokeCount plotA.yTickLoop = ⌊plotA.ticks.y⌋.toNat + 1 ∧
    fillTextStrings plotA.yTickLoop =
      (List.range (⌊plotA.ticks.y⌋.toNat + 1)).map
        (fun i : ℕ => plotA.yLabelFormatter (plotA.mapToY ((i : ℝ) / plotA.ticks.y))) :=
  Plot.tick_loop_counts plotA (by norm_num [plotA]) (by norm_num [plotA])

/-- C6: toRelativeGridSize divides componentwise by max - min with no guard,
so on a state with min.x = max.x or min.y = max.y the checked computation of
getPointFromPlotSpace is undefined (division by zero), while under the
precondition min.x != max.x and min.y != max.y the division branch is always
safe and agrees with the unchecked computation. -/
theorem Plot.toRelativeGridSize_guard (p : Plot) (pt : Vec2) :
    ((p.min.x = p.max.x ∨ p.min.y = p.max.y) →
      p.toRelativeGridSizeChecked pt = none ∧
      p.getPointFromPlotSpaceChecked pt = none) ∧
    (p.min.x ≠ p.max.x → p.min.y ≠ p.max.y →
      p.toRelativeGridSizeChecked pt = some (p.toRelativeGridSize pt)) := by
  constructor
  · intro h
    have hrel : p.toRelativeGridSizeChecked pt = none := by
      rcases h with h | h
      · have hz : p.max.x - p.min.x = 0 := by rw [h]; ring
        simp [Plot.toRelativeGridSizeChecked, checkedDiv, hz]
      · have hz : p.max.y - p.min.y = 0 := by rw [h]; ring
        simp [Plot.toRelativeGridSizeChecked, checkedDiv, hz]
    refine ⟨hrel, ?_⟩
    cases hpad : p.edgePaddingChecked with
    | none => simp [Plot.getPointFromPlotSpaceChecked, hpad]
    | some pad => simp [Plot.getPointFromPlotSpaceChecked, hpad, hrel]
  · intro hx hy
    have hx0 : p.max.x - p.min.x ≠ 0 := sub_ne_zero.mpr (Ne.symm hx)
    have hy0 : p.max.y - p.min.y ≠ 0 := sub_ne_zero.mpr (Ne.symm hy)
    simp [Plot.toRelativeGridSizeChecked, checkedDiv, hx0, hy0,
      Plot.toRelativeGridSize, Vec2.div, Vec2.sub]

/-- Witness for C6: the degenerate branch at plotDegX (min.x = max.x = 1)
and the safe branch at the default plot. -/
theorem Plot.toRelativeGridSize_guard_witness :
    (plotDegX.toRelativeGridSizeChecked ⟨3, 4⟩ = none ∧
      plotDegX.getPointFromPlotSpaceChecked ⟨3, 4⟩ = none) ∧
    plotA.toRelativeGridSizeChecked ⟨3, 4⟩ =
      some (plotA.toRelativeGridSize ⟨3, 4⟩) :=
  ⟨(Plot.toRelativeGridSize_guard plotDegX ⟨3, 4⟩).1
      (Or.inl (by norm_num [plotDegX, plotA])),
    (Plot.toRelativeGridSize_guard plotA ⟨3, 4⟩).2
      (by norm_num [plotA]) (by norm_num [plotA])⟩

/-- C7: edgePadding applies log10 to max.y with no guard, so its checked
computation (and the checked gridSize and getPointFromPlotSpace derived from
it) is undefined on every state with max.y <= 0, and is defined and equal to
the unchecked value whenever max.y > 0. -/
theorem Plot.edgePadding_guard (p : Plot) :
    (p.max.y ≤ 0 →
      p.edgePaddingChecked = none ∧ p.gridSizeChecked = none ∧
      ∀ pt : Vec2, p.getPointFromPlotSpaceChecked pt = none) ∧
    (0 < p.max.y →
      p.edgePaddingChecked = some p.edgePadding ∧
      p.gridSizeChecked = some p.gridSize) := by
  constructor
  · intro h
    have hlog : checkedLog10 p.max.y = none := by
      simp [checkedLog10, not_lt.mpr h]
    have hpad : p.edgePaddingChecked = none := by
      simp [Plot.edgePaddingChecked, hlog]
    exact ⟨hpad, by simp [Plot.gridSizeChecked, hpad],
      fun pt => by simp [Plot.getPointFromPlotSpaceChecked, hpad]⟩
  · intro h
    have hpad : p.edgePaddingChecked = some p.edgePadding := by
      simp [Plot.edgePaddingChecked, checkedLog10, h, Plot.edgePadding]
    exact ⟨hpad, by simp [Plot.gridSizeChecked, hpad, Plot.gridSize]⟩

/-- Witness for C7: undefined at plotY0 (max.y = 0), defined at the default
plot (max.y = 100). -/
theorem Plot.edgePadding_guard_witness :
    (plotY0.edgePaddingChecked = none ∧ plotY0.gridSizeChecked = none ∧
      ∀ pt : Vec2, plotY0.getPointFromPlotSpaceChecked pt = none) ∧
    (plotA.edgePaddingChecked = some plotA.edgePadding ∧
      plotA.gridSizeChecked = some plotA.gridSize) :=
  ⟨(Plot.edgePadding_guard plotY0).1 (by norm_num [plotY0, plotA]),
    (Plot.edgePadding_guard plotA).2 (by norm_num [plotA])⟩

/-- C8: constructing a Plot with the props bag absent dereferences an absent
value (the construction of the formatters is undefined), while any props bag
with both formatters omitted yields the defaults v => v.toFixed(0) on both
axes. -/
theorem Plot.constructor_formatter_defaults :
    constructFormatters none = none ∧
    ∀ props : PlotProps,
      props.xLabelFormatter = none → props.yLabelFormatter = none →
      constructFormatters (some props) = some (jsToFixed0, jsToFixed0) := by
  refine ⟨rfl, fun props hx hy => ?_⟩
  simp [constructFormatters, hx, hy]

/-- Witness for C8 at the empty props bag. -/
theorem Plot.constructor_formatter_defaults_witness :
    constructFormatters (some ⟨none, none⟩) = some (jsToFixed0, jsToFixed0) :=
  Plot.constructor_formatter_defaults.2 ⟨none, none⟩ rfl rfl

/-- C9: drawShape leaves the component state unchanged (the method body
writes no declarative property, so the Plot value passes through
drawShapeRun untouched), and the transform state of the canvas context --
mutated only by the translate/rotate of the rotated y axis label inside the
save/restore pair -- is fully restored by the end of the command sequence. -/
theorem Plot.drawShape_frame (p : Plot) (st : CanvasTransformState) :
    (p.drawShapeRun).1 = p ∧ applyCmds p.drawShape st = st := by
  refine ⟨rfl, ?_⟩
  rw [Plot.drawShape, applyCmds_append, applyCmds_append, applyCmds_append,
    Plot.xTickLoop, Plot.yTickLoop,
    applyCmds_tickLoop p.xTickCmds (fun i st => rfl),
    applyCmds_tickLoop p.yTickCmds (fun i st => rfl)]
  rfl

/-- C10: the layout logic is deterministic, depending only on the declared
properties: two plots agreeing on every property produce the same pixel
point for every data point and issue the same command sequence. -/
theorem Plot.layout_deterministic (p q : Plot)
    (h1 : p.position = q.position) (h2 : p.size = q.size)
    (h3 : p.fontFamily = q.fontFamily) (h4 : p.min = q.min)
    (h5 : p.max = q.max) (h6 : p.ticks = q.ticks)
    (h7 : p.labelSize = q.labelSize) (h8 : p.labelPadding = q.labelPadding)
    (h9 : p.tickLabelSize = q.tickLabelSize)
    (h10 : p.tickOverflow = q.tickOverflow)
    (h11 : p.gridStrokeWidth = q.gridStrokeWidth)
    (h12 : p.axisStrokeWidth = q.axisStrokeWidth)
    (h13 : p.xAxisColor = q.xAxisColor)
    (h14 : p.xAxisTextColor = q.xAxisTextColor)
    (h15 : p.xAxisLabel = q.xAxisLabel) (h16 : p.yAxisColor = q.yAxisColor)
    (h17 : p.yAxisTextColor = q.yAxisTextColor)
    (h18 : p.yAxisLabel = q.yAxisLabel)
    (h19 : p.xLabelFormatter = q.xLabelFormatter)
    (h20 : p.yLabelFormatter = q.yLabelFormatter) :
    (∀ pt : Vec2, p.getPointFromPlotSpace pt = q.getPointFromPlotSpace pt) ∧
    p.drawShape = q.drawShape := by
  have hpq : p = q := by
    cases p
    cases q
    simp_all
  rw [hpq]
  exact ⟨fun pt => rfl, rfl⟩

/-- Witness for C10 at the default plot compared with itself. -/
theorem Plot.layout_deterministic_witness :
    (∀ pt : Vec2,
      plotA.getPointFromPlotSpace pt = plotA.getPointFromPlotSpace pt) ∧
    plotA.drawShape = plotA.drawShape :=
  Plot.layout_deterministic plotA plotA rfl rfl rfl rfl rfl rfl rfl rfl rfl
    rfl rfl rfl rfl rfl rfl rfl rfl rfl rfl rfl
